import Mathlib

/-!
Verification of the credential-lifecycle and GitLab-integration layer of the
code-review backend: the GitLab credential validator, the credential store
(create / read / update / delete of `GitLabConfig` records), the merge-request
list formatter, the conversational dispatcher, and the token cipher wrapper.

Pure Python functions are embedded as Lean functions; the outcome of each
outbound HTTP call is an explicit parameter (`HttpOutcome`), and external
library services (pydantic URL syntax checking, the Fernet cipher) are
parameters constrained only by their documented contracts.
-/

namespace CodeReview

/-! ## GitLab credential validation (`gitlab_validator.py`) -/

/-- Embeds `GitLabValidationResult` (pydantic model, `gitlab_validator.py`).
Optional fields default to `none` as in the source. -/
structure GitLabValidationResult where
  is_valid : Bool
  error_message : Option String := none
  error_code : Option String := none
  gitlab_username : Option String := none
deriving Repr, DecidableEq

/-- Outcome of the single HTTP GET issued by `validate_gitlab_credentials`.
`response status username` is an HTTP response whose JSON body carries the
optional `username` field; `unexpected` stands for any other exception raised
inside the `try` block (including a body that fails to parse as JSON). -/
inductive HttpOutcome where
  | response (status : Nat) (username : Option String)
  | timeout
  | networkError
  | unexpected
deriving Repr, DecidableEq

/-- Python's `str.rstrip('/')`: remove all trailing slashes. -/
def rstripSlash (s : String) : String :=
  s.dropRightWhile (fun c => c = '/')

/-- Embeds `validate_gitlab_credentials` (`gitlab_validator.py`, lines 20-125).
`httpUrlOk` is the external pydantic `HttpUrl` syntax check, applied to the
slash-stripped URL; `outcome` is the result of the network call to
`{url}/api/v4/user`. The `access_token` only feeds the request header, so it
influences the result solely through `outcome`. -/
def validate_gitlab_credentials (httpUrlOk : String → Bool)
    (gitlab_url : String) (outcome : HttpOutcome) : GitLabValidationResult :=
  let url := rstripSlash gitlab_url
  if ¬ httpUrlOk url then
    { is_valid := false
      error_message := some "Invalid GitLab URL format"
      error_code := some "invalid_url" }
  else
    match outcome with
    | .response status username =>
      if status = 200 then
        { is_valid := true, gitlab_username := some (username.getD "unknown") }
      else if status = 401 then
        { is_valid := false
          error_message := some "Invalid access token or token expired"
          error_code := some "invalid_token" }
      else if status = 403 then
        { is_valid := false
          error_message := some "Token lacks required permissions"
          error_code := some "insufficient_permissions" }
      else if status = 404 then
        { is_valid := false
          error_message := some "GitLab API endpoint not found - check URL"
          error_code := some "not_found" }
      else
        { is_valid := false
          error_message := some ("GitLab API error: " ++ toString status)
          error_code := some "api_error" }
    | .timeout =>
        { is_valid := false
          error_message := some "Connection timeout - GitLab instance unreachable"
          error_code := some "timeout" }
    | .networkError =>
        { is_valid := false
          error_message := some "Network error - could not reach GitLab instance"
          error_code := some "network_error" }
    | .unexpected =>
        { is_valid := false
          error_message := some "Unexpected error during validation"
          error_code := some "unknown_error" }

/-- The closed set of error codes of §3 of the spec. -/
def validationErrorCodes : List String :=
  ["invalid_url", "invalid_token", "insufficient_permissions", "not_found",
   "api_error", "timeout", "network_error", "unknown_error"]

/-! ## Data model (`models.py`, `schemas.py`)

Record ids and user ids are UUIDs in the source; they are embedded as `Nat`
(only equality on them is ever used). Encrypted token bytes are `List Nat`
(opaque byte strings). Timestamps are `Nat` instants supplied by the caller
(`now` stands for `datetime.utcnow()`). -/

/-- Embeds the `GitLabConfig` ORM row (`models.py`). -/
structure GitLabConfig where
  id : Nat
  user_id : Nat
  config_name : Option String := none
  gitlab_url : String
  access_token_encrypted : List Nat
  project_id : Option String := none
  is_active : Bool := true
  created_at : Nat := 0
  updated_at : Nat := 0
deriving Repr, DecidableEq

/-- Embeds the `GitLabConfigCreate` request schema (`schemas.py`). -/
structure GitLabConfigCreate where
  config_name : Option String := none
  gitlab_url : String
  access_token : String
  project_id : Option String := none
deriving Repr, DecidableEq

/-- Embeds the `GitLabConfigUpdate` request schema (`schemas.py`): every field
optional, absent fields arriving as `None`. -/
structure GitLabConfigUpdate where
  config_name : Option String := none
  gitlab_url : Option String := none
  access_token : Option String := none
  project_id : Option String := none
  is_active : Option Bool := none
deriving Repr, DecidableEq

/-- Embeds the `GitLabConfigResponse` schema (`schemas.py`): what the
configuration endpoints serialize back, validation fields defaulting `None`. -/
structure GitLabConfigResponse where
  id : Nat
  config_name : Option String
  gitlab_url : String
  project_id : Option String
  is_active : Bool
  validation_message : Option String := none
  validation_error_code : Option String := none
  gitlab_username : Option String := none
  created_at : Nat
  updated_at : Nat
deriving Repr, DecidableEq

/-- Embeds FastAPI's `HTTPException` as raised by the service layer. -/
structure HTTPException where
  status_code : Nat
  detail : String
deriving Repr, DecidableEq

/-- The duplicate-URL rejection of `create_gitlab_config` (`llm_service.py`,
lines 168-172): the spec's `Conflict` category, emitted by the source with
HTTP status 400. -/
def conflictError : HTTPException :=
  { status_code := 400, detail := "GitLab configuration for this URL already exists" }

/-- The missing-record rejection shared by get/update/delete
(`llm_service.py`): the spec's `NotFound` category, HTTP status 404. -/
def notFoundError : HTTPException :=
  { status_code := 404, detail := "GitLab configuration not found" }

/-- Python's `x or default` on an optional string: `None` and `""` are falsy. -/
def pyOrStr (x : Option String) (default : String) : String :=
  match x with
  | none => default
  | some s => if s = "" then default else s

/-- Python whitespace class, as used by `str.strip` and by `\s` in the
dispatcher's regular expression (ASCII portion). -/
def pyIsSpace (c : Char) : Bool :=
  c = ' ' ∨ c = '\t' ∨ c = '\n' ∨ c = '\r' ∨ c = '\x0b' ∨ c = '\x0c'

/-- Python's `str.strip()`: remove leading and trailing whitespace. -/
def pyStrip (s : String) : String :=
  String.mk (((s.toList.dropWhile pyIsSpace).reverse.dropWhile pyIsSpace).reverse)

theorem pyStrip_empty : pyStrip "" = "" := rfl

/-- Python's `str.lower()` (ASCII case mapping; the dispatcher's patterns
are ASCII). -/
def pyLower (s : String) : String :=
  String.mk (s.toList.map Char.toLower)

/-! ## Credential store (`llm_service.py`)

The database is a list of `GitLabConfig` rows. The SQLAlchemy query
`filter(id == config_id, user_id == current_user.id).first()` is `List.find?`
with the conjunction of both equalities. External collaborators are
parameters: `encrypt` is `encrypt_token`, `httpUrlOk` the pydantic URL check
inside the validator, and `outcome` the HTTP outcome of the single validation
call the endpoint performs. Mutating endpoints return the resulting database
next to the HTTP result. -/

/-- The per-user record lookup shared by get/update/delete: filters by both
the record id and the requesting user's id. -/
def findConfig (db : List GitLabConfig) (config_id user_id : Nat) :
    Option GitLabConfig :=
  db.find? (fun c => c.id = config_id ∧ c.user_id = user_id)

/-- Serialization of a `GitLabConfig` row through `GitLabConfigResponse`
when no validation details accompany the response (validation fields keep
their `None` schema defaults). -/
def configToResponse (c : GitLabConfig) : GitLabConfigResponse :=
  { id := c.id, config_name := c.config_name, gitlab_url := c.gitlab_url
    project_id := c.project_id, is_active := c.is_active
    created_at := c.created_at, updated_at := c.updated_at }

/-- The response dict built by create/update when a validation ran
(`llm_service.py`, lines 198-209 and 297-308). -/
def responseWithValidation (c : GitLabConfig) (vr : GitLabValidationResult) :
    GitLabConfigResponse :=
  { id := c.id, config_name := c.config_name, gitlab_url := c.gitlab_url
    project_id := c.project_id, is_active := c.is_active
    created_at := c.created_at, updated_at := c.updated_at
    validation_message := some (pyOrStr vr.error_message "Credentials validated successfully")
    validation_error_code := vr.error_code
    gitlab_username := vr.gitlab_username }

/-- Embeds `create_gitlab_config` (`llm_service.py`, lines 155-211).
`new_id` is the UUID the ORM generates for the inserted row and `now` its
server-side timestamp. Returns the HTTP result and the database after the
request. -/
def create_gitlab_config (httpUrlOk : String → Bool) (outcome : HttpOutcome)
    (encrypt : String → List Nat) (new_id now : Nat)
    (current_user_id : Nat) (config_data : GitLabConfigCreate)
    (db : List GitLabConfig) :
    Except HTTPException GitLabConfigResponse × List GitLabConfig :=
  match db.find? (fun c => c.user_id = current_user_id ∧
                           c.gitlab_url = config_data.gitlab_url) with
  | some _ => (.error conflictError, db)
  | none =>
    let validation_result :=
      validate_gitlab_credentials httpUrlOk config_data.gitlab_url outcome
    let encrypted_token := encrypt config_data.access_token
    let new_config : GitLabConfig :=
      { id := new_id, user_id := current_user_id
        config_name := config_data.config_name
        gitlab_url := config_data.gitlab_url
        access_token_encrypted := encrypted_token
        project_id := config_data.project_id
        is_active := validation_result.is_valid
        created_at := now, updated_at := now }
    (.ok (responseWithValidation new_config validation_result), db ++ [new_config])

/-- Embeds `get_gitlab_config` (`llm_service.py`, lines 226-244). -/
def get_gitlab_config (config_id current_user_id : Nat)
    (db : List GitLabConfig) : Except HTTPException GitLabConfigResponse :=
  match findConfig db config_id current_user_id with
  | none => .error notFoundError
  | some config => .ok (configToResponse config)

/-- The row-update step of `update_gitlab_config` (`llm_service.py`, lines
266-291), applied to the fetched row. A validation runs exactly when
`access_token` is present and non-blank (`.strip()` truthy); it uses the
incoming URL when present and non-empty (Python `or`), else the stored one.
Manual `is_active` is applied only when `access_token is None`. Returns the
mutated row and the validation result when one was computed. -/
def applyConfigUpdate (httpUrlOk : String → Bool) (outcome : HttpOutcome)
    (encrypt : String → List Nat) (now : Nat)
    (config_update : GitLabConfigUpdate) (config : GitLabConfig) :
    GitLabConfig × Option GitLabValidationResult :=
  -- lines 269-278: token-driven validation branch
  let tokenStep : GitLabConfig × Option GitLabValidationResult :=
    match config_update.access_token with
    | some tok =>
      if pyStrip tok ≠ "" then
        let vr := validate_gitlab_credentials httpUrlOk
          (pyOrStr config_update.gitlab_url config.gitlab_url) outcome
        ({ config with access_token_encrypted := encrypt tok
                       is_active := vr.is_valid }, some vr)
      else (config, none)
    | none => (config, none)
  let config1 := tokenStep.1
  -- lines 280-289: remaining field updates
  let config2 : GitLabConfig :=
    { config1 with
      config_name := match config_update.config_name with
                     | some n => some n | none => config1.config_name
      gitlab_url := match config_update.gitlab_url with
                    | some u => u | none => config1.gitlab_url
      project_id := match config_update.project_id with
                    | some p => some p | none => config1.project_id
      is_active := match config_update.is_active, config_update.access_token with
                   | some b, none => b | _, _ => config1.is_active
      updated_at := now }
  (config2, tokenStep.2)

/-- Embeds `update_gitlab_config` (`llm_service.py`, lines 247-311): the
(record id, user id) lookup, the row update via `applyConfigUpdate`, and the
response — with validation details exactly when a validation ran. Returns the
HTTP result and the database after the request; the in-place ORM mutation is
the replacement of the fetched row. -/
def update_gitlab_config (httpUrlOk : String → Bool) (outcome : HttpOutcome)
    (encrypt : String → List Nat) (now : Nat)
    (config_id current_user_id : Nat) (config_update : GitLabConfigUpdate)
    (db : List GitLabConfig) :
    Except HTTPException GitLabConfigResponse × List GitLabConfig :=
  match findConfig db config_id current_user_id with
  | none => (.error notFoundError, db)
  | some config =>
    let r := applyConfigUpdate httpUrlOk outcome encrypt now config_update config
    let db2 := db.map (fun c => if c.id = config.id ∧ c.user_id = config.user_id
                                then r.1 else c)
    match r.2 with
    | some vr => (.ok (responseWithValidation r.1 vr), db2)
    | none => (.ok (configToResponse r.1), db2)

/-- Embeds `delete_gitlab_config` (`llm_service.py`, lines 314-335). -/
def delete_gitlab_config (config_id current_user_id : Nat)
    (db : List GitLabConfig) :
    Except HTTPException Unit × List GitLabConfig :=
  match findConfig db config_id current_user_id with
  | none => (.error notFoundError, db)
  | some config =>
    (.ok (), db.filter (fun c => ¬ (c.id = config.id ∧ c.user_id = config.user_id)))

/-! ## Merge-request list formatting (`gitlab_tools.py`)

`list_merge_requests` is embedded on its success path: the GitLab API call
returned 2xx and its JSON body parsed into a list of merge requests. The
fetched JSON records are embedded as `MergeRequest` values. -/

/-- Author sub-object of a merge request JSON record. -/
structure MRAuthor where
  name : String
  username : String
deriving Repr, DecidableEq

/-- The fields of a merge-request JSON record that
`list_merge_requests` reads. -/
structure MergeRequest where
  iid : Nat
  title : String
  author : MRAuthor
  state : String
  upvotes : Nat := 0
  downvotes : Nat := 0
  source_branch : String
  target_branch : String
  labels : List String := []
  created_at : String
  updated_at : String
  web_url : String
deriving Repr, DecidableEq

/-- Python's `s.split('T')[0]`: the part of `s` before the first `T`. -/
def dateOnly (s : String) : String :=
  (s.splitOn "T").headD ""

/-- Label rendering (`gitlab_tools.py`, line 59): backtick-wrapped,
comma-joined, `"None"` for an empty list. -/
def formatLabels (labels : List String) : String :=
  if labels.isEmpty then "None"
  else String.intercalate ", " (labels.map (fun l => "`" ++ l ++ "`"))

/-- Approval counts rendering (`gitlab_tools.py`, lines 62-66): each count
shown only when nonzero. -/
def formatApprovals (upvotes downvotes : Nat) : String :=
  let approvals := if upvotes > 0 then "👍 " ++ toString upvotes else ""
  if downvotes > 0 then approvals ++ " 👎 " ++ toString downvotes else approvals

/-- One entry of the merge-request list (`gitlab_tools.py`, lines 72-80). -/
def formatMREntry (mr : MergeRequest) : String :=
  "### MR !" ++ toString mr.iid ++ ": " ++ mr.title ++ "\n\n" ++
  "- **Author:** " ++ mr.author.name ++ " (@" ++ mr.author.username ++ ")\n" ++
  "- **Status:** `" ++ mr.state ++ "` " ++ formatApprovals mr.upvotes mr.downvotes ++ "\n" ++
  "- **Branch:** `" ++ mr.source_branch ++ "` → `" ++ mr.target_branch ++ "`\n" ++
  "- **Labels:** " ++ formatLabels mr.labels ++ "\n" ++
  "- **Created:** " ++ dateOnly mr.created_at ++ " | **Updated:** " ++ dateOnly mr.updated_at ++ "\n" ++
  "- **URL:** " ++ mr.web_url

/-- The entries `list_merge_requests` renders: `merge_requests[:10]`
(`gitlab_tools.py`, line 57). -/
def displayedMREntries (merge_requests : List MergeRequest) : List String :=
  (merge_requests.take 10).map formatMREntry

/-- Embeds the formatting of `list_merge_requests` (`gitlab_tools.py`,
lines 50-90) given the parsed response body: the empty-list message, the
header, at most 10 entries, and the `... and N more` trailer when the server
returned more than 10. -/
def list_merge_requests_format (project_id : String) (state : String)
    (merge_requests : List MergeRequest) : String :=
  if merge_requests.isEmpty then
    "No " ++ state ++ " merge requests found in project " ++ project_id ++ "."
  else
    let header := "# 📋 Merge Requests in Project " ++ project_id ++ "\n\n" ++
      "**Filter:** " ++ state ++ " | **Total:** " ++ toString merge_requests.length ++
      "\n\n" ++ "---\n\n"
    let body := header ++ String.intercalate "\n\n" (displayedMREntries merge_requests)
    if merge_requests.length > 10 then
      body ++ ("\n\n---\n\n*... and " ++ toString (merge_requests.length - 10) ++
        " more merge requests*")
    else body

/-! ## Command dispatcher (`gitlab_agent.py`)

`GitLabAgent.handle_query` is embedded as a function of the agent state
(the user's configurations and the currently selected one), the query, and
the session's remembered config id. The two tool invocations it can make
(`list_merge_requests`, `get_merge_request_details`) are awaited network
operations and enter as function parameters producing their reply strings.
Python's `None` return is `Option.none`. -/

/-- Reads a maximal run of leading decimal digits; `none` when there is no
leading digit (the regex's `(\d+)` group). -/
def takeDigits : List Char → Option (Nat × List Char)
  | [] => none
  | c :: rest =>
    if c.isDigit then
      match takeDigits rest with
      | some (n, rest2) =>
        -- leading digits accumulate positionally
        some ((c.toNat - '0'.toNat) * 10 ^ (rest.length - rest2.length) + n, rest2)
      | none => some (c.toNat - '0'.toNat, rest)
    else none

/-- After an alternative of the regex matched, consume `\s*` then require
`(\d+)` (`re.search(r'(?:!|mr|merge\s+request)\s*(\d+)', query_lower)`). -/
def matchNumberTail (cs : List Char) : Option Nat :=
  (takeDigits (cs.dropWhile pyIsSpace)).map Prod.fst

/-- `\s+` of the regex: at least one whitespace character. -/
def dropSpaces1 (cs : List Char) : Option (List Char) :=
  match cs with
  | c :: rest => if pyIsSpace c then some (rest.dropWhile pyIsSpace) else none
  | [] => none

/-- Attempt the MR-number pattern anchored at this position, trying the
alternatives `!`, `mr`, `merge\s+request` in the regex's order. -/
def matchMRAt (cs : List Char) : Option Nat :=
  (match cs with
   | '!' :: rest => matchNumberTail rest
   | _ => none).orElse (fun _ =>
  (match cs with
   | 'm' :: 'r' :: rest => matchNumberTail rest
   | _ => none).orElse (fun _ =>
  match cs with
  | 'm' :: 'e' :: 'r' :: 'g' :: 'e' :: rest =>
    match dropSpaces1 rest with
    | some rest2 =>
      match rest2 with
      | 'r' :: 'e' :: 'q' :: 'u' :: 'e' :: 's' :: 't' :: rest3 => matchNumberTail rest3
      | _ => none
    | none => none
  | _ => none))

/-- `re.search` of the MR-number pattern over the lowered query: leftmost
position whose alternatives match, yielding the captured number. -/
def findMRNumber : List Char → Option Nat
  | [] => none
  | c :: rest => (matchMRAt (c :: rest)).orElse (fun _ => findMRNumber rest)

/-- Substring containment (Python's `keyword in query_lower`). -/
def containsSub (cs sub : List Char) : Bool :=
  decide (sub <:+: cs)

/-- The list-intent keywords (`gitlab_agent.py`, line 237). -/
def listKeywords : List (List Char) :=
  ["list".toList, "show".toList, "merge request".toList, "mr".toList,
   "pull request".toList]

/-- `any(keyword in query_lower for keyword in [...])`. -/
def hasListKeyword (cs : List Char) : Bool :=
  listKeywords.any (fun k => containsSub cs k)

/-- State-filter selection (`gitlab_agent.py`, lines 239-246). -/
def stateFromQuery (cs : List Char) : String :=
  if containsSub cs "closed".toList then "closed"
  else if containsSub cs "merged".toList then "merged"
  else if containsSub cs "all".toList then "all"
  else "opened"

/-- Mutable per-conversation agent fields (`GitLabAgent.__init__`). -/
structure AgentState where
  gitlab_configs : List GitLabConfig
  selected_config : Option GitLabConfig := none
deriving Repr, DecidableEq

/-- Embeds `GitLabAgent.select_config_by_id`: first configuration whose id
matches. -/
def select_config_by_id (configs : List GitLabConfig) (config_id : Nat) :
    Option GitLabConfig :=
  configs.find? (fun c => c.id = config_id)

/-- One block of `GitLabAgent.list_gitlab_configs` (lines 77-85). -/
def configListEntry (idx : Nat) (c : GitLabConfig) : String :=
  let stat := if c.is_active then "✓ Valid" else "⚠ Invalid"
  let name := pyOrStr c.config_name ("Config " ++ toString idx)
  toString idx ++ ". " ++ name ++ "\n" ++
  "   URL: " ++ c.gitlab_url ++ "\n" ++
  "   Status: " ++ stat ++ "\n" ++
  "   ID: " ++ toString c.id

/-- Embeds `GitLabAgent.list_gitlab_configs` (lines 66-87). -/
def list_gitlab_configs (configs : List GitLabConfig) : String :=
  if configs.isEmpty then
    "No GitLab configurations found. Please add a GitLab configuration in settings first."
  else
    String.intercalate "\n\n"
      ((configs.enum).map (fun p => configListEntry (p.1 + 1) p.2))

/-- The configuration-selection phase at the top of `handle_query`
(lines 206-218): keep the already selected config; else resolve the session's
remembered id; else auto-select when exactly one active config exists;
otherwise unresolved. -/
def resolveConfig (st : AgentState) (last_config_id : Option Nat) :
    Option GitLabConfig :=
  match st.selected_config with
  | some c => some c
  | none =>
    match last_config_id.bind (fun cid => select_config_by_id st.gitlab_configs cid) with
    | some c => some c
    | none =>
      match st.gitlab_configs.filter (fun c => c.is_active) with
      | [c] => some c
      | _ => none

/-- The prompt returned when no configuration can be resolved (line 218). -/
def selectConfigPrompt (configs : List GitLabConfig) : String :=
  "Please select a GitLab configuration first:\n\n" ++
  list_gitlab_configs configs ++
  "\n\nThen use `/show-mr` or `/review-mr` to get started."

/-- Embeds `GitLabAgent.handle_query` (`gitlab_agent.py`, lines 195-252).
`listMRsTool state` and `mrDetailsTool n` are the awaited results of the two
GitLab tools for the resolved configuration. Returns the reply (`none` is the
Python `return None` non-match sentinel) and the agent state afterwards. -/
def handle_query (listMRsTool : String → String) (mrDetailsTool : Nat → String)
    (st : AgentState) (query : String) (last_config_id : Option Nat) :
    Option String × AgentState :=
  match resolveConfig st last_config_id with
  | none => (some (selectConfigPrompt st.gitlab_configs), st)
  | some c =>
    let st2 : AgentState := { st with selected_config := some c }
    let query_lower := (pyLower query).data
    match findMRNumber query_lower with
    | some mr_number => (some (mrDetailsTool mr_number), st2)
    | none =>
      if hasListKeyword query_lower then
        (some (listMRsTool (stateFromQuery query_lower)), st2)
      else
        (none, st2)

/-! ## Token cipher (`encryption.py`)

`encrypt_token` / `decrypt_token` are thin wrappers around the external
`cryptography.fernet` cipher and Python's UTF-8 `str.encode`/`bytes.decode`.
Those externals enter as a `CipherLib` bundle constrained exactly by their
documented contracts (Fernet decryption under the encrypting key recovers the
message; UTF-8 decode inverts encode). The repository's own code — key
resolution with the PBKDF2 fallback and the wrapping itself — is embedded
from the source. -/

/-- The external services `encryption.py` relies on, with their documented
contracts. Byte strings are `List Nat`. -/
structure CipherLib where
  /-- `Fernet.generate_key()` as drawn once by this process. -/
  generated_key : List Nat
  /-- Whether `Fernet(key)` accepts `key` (base64url-encoded 32 bytes). -/
  isFernetKey : List Nat → Bool
  /-- `base64.urlsafe_b64encode(PBKDF2HMAC(SHA256, len 32, fixed salt,
  100000 iterations).derive(bytes))`. -/
  deriveKey : List Nat → List Nat
  /-- `Fernet(key).encrypt(msg)`. -/
  fernetEncrypt : List Nat → List Nat → List Nat
  /-- `Fernet(key).decrypt(ct)`; `none` is the raised `InvalidToken`. -/
  fernetDecrypt : List Nat → List Nat → Option (List Nat)
  /-- Python `str.encode()` (UTF-8). -/
  strEncode : String → List Nat
  /-- Python `bytes.decode()` (UTF-8); `none` is a decode error. -/
  bytesDecode : List Nat → Option String
  /-- Fernet's contract: decrypting under the encrypting key recovers the
  message. -/
  fernet_roundtrip : ∀ key msg, fernetDecrypt key (fernetEncrypt key msg) = some msg
  /-- UTF-8 decode inverts encode. -/
  encode_decode : ∀ s, bytesDecode (strEncode s) = some s

/-- Embeds `get_encryption_key` (`encryption.py`, lines 12-40): use the
configured key when it is already a valid Fernet key, derive one from it
otherwise, and fall back to the process-lifetime generated key when none is
configured. `env_key` is `os.getenv("ENCRYPTION_KEY")`. -/
def get_encryption_key (L : CipherLib) (env_key : Option String) : List Nat :=
  match env_key with
  | none => L.generated_key
  | some key_str =>
    let test_key := L.strEncode key_str
    if L.isFernetKey test_key then test_key
    else L.deriveKey test_key

/-- Embeds `encrypt_token` (`encryption.py`, lines 43-48). -/
def encrypt_token (L : CipherLib) (env_key : Option String) (token : String) :
    List Nat :=
  L.fernetEncrypt (get_encryption_key L env_key) (L.strEncode token)

/-- Embeds `decrypt_token` (`encryption.py`, lines 51-56); the raised
decryption/decoding failure is `none`. -/
def decrypt_token (L : CipherLib) (env_key : Option String)
    (encrypted_token : List Nat) : Option String :=
  (L.fernetDecrypt (get_encryption_key L env_key) encrypted_token).bind
    L.bytesDecode

/-- Char-to-codepoint encoding inverts pointwise. -/
theorem map_ofNat_toNat (cs : List Char) :
    (cs.map Char.toNat).map Char.ofNat = cs := by
  induction cs with
  | nil => rfl
  | cons c cs ih => simp [Char.ofNat_toNat, ih]

/-- A concrete `CipherLib` instance (identity transport with codepoint
encoding), showing the contract is satisfiable. -/
def plainCipherLib : CipherLib where
  generated_key := [0]
  isFernetKey := fun k => k.length = 44
  deriveKey := fun k => k
  fernetEncrypt := fun _ msg => msg
  fernetDecrypt := fun _ ct => some ct
  strEncode := fun s => s.toList.map Char.toNat
  bytesDecode := fun bs => some (String.mk (bs.map Char.ofNat))
  fernet_roundtrip := fun _ _ => rfl
  encode_decode := by
    intro s
    cases s with
    | mk cs =>
      show some (String.mk ((cs.map Char.toNat).map Char.ofNat)) = some (String.mk cs)
      rw [map_ofNat_toNat]

/-! ## Theorems -/

/-- Every validation result is either valid with no error code, or invalid
with an error code drawn from the closed error-code set of §3. Shared by the
error-handling claims about the validator and the credential store. -/
theorem validate_result_shape (httpUrlOk : String → Bool) (url : String)
    (outcome : HttpOutcome) :
    ((validate_gitlab_credentials httpUrlOk url outcome).is_valid = true ∧
      (validate_gitlab_credentials httpUrlOk url outcome).error_code = none) ∨
    ((validate_gitlab_credentials httpUrlOk url outcome).is_valid = false ∧
      ∃ e, (validate_gitlab_credentials httpUrlOk url outcome).error_code = some e ∧
        e ∈ validationErrorCodes) := by
  unfold validate_gitlab_credentials
  by_cases hu : httpUrlOk (rstripSlash url)
  · simp only [hu, not_true_eq_false, if_false]
    cases outcome with
    | response status username =>
      by_cases h200 : status = 200
      · simp [h200]
      · by_cases h401 : status = 401
        · simp [h200, h401, validationErrorCodes]
        · by_cases h403 : status = 403
          · simp [h200, h401, h403, validationErrorCodes]
          · by_cases h404 : status = 404
            · simp [h200, h401, h403, h404, validationErrorCodes]
            · simp [h200, h401, h403, h404, validationErrorCodes]
    | timeout => simp [validationErrorCodes]
    | networkError => simp [validationErrorCodes]
    | unexpected => simp [validationErrorCodes]
  · simp [hu, validationErrorCodes]

/-- An invalid validation result always carries an error code. -/
theorem validate_invalid_has_error_code (httpUrlOk : String → Bool)
    (url : String) (outcome : HttpOutcome)
    (h : (validate_gitlab_credentials httpUrlOk url outcome).is_valid = false) :
    ∃ e, (validate_gitlab_credentials httpUrlOk url outcome).error_code = some e ∧
      e ∈ validationErrorCodes := by
  rcases validate_result_shape httpUrlOk url outcome with ⟨hv, _⟩ | ⟨_, he⟩
  · rw [h] at hv; cases hv
  · exact he

/-- C2: `validate_gitlab_credentials` follows the fixed error-code mapping:
a URL failing the syntax check yields `invalid_url` independently of any
network outcome (so before any network call); under a syntactically valid
URL, HTTP 200 is valid with the resolved username, 401 is `invalid_token`,
403 is `insufficient_permissions`, 404 is `not_found`, a timeout is
`timeout`, a connection failure is `network_error`, and any other status is
`api_error` with the status code in the message. -/
theorem validateCredential_error_code_mapping
    (httpUrlOk : String → Bool) (url : String) :
    (httpUrlOk (rstripSlash url) = false →
      ∀ outcome, validate_gitlab_credentials httpUrlOk url outcome =
        { is_valid := false, error_message := some "Invalid GitLab URL format"
          error_code := some "invalid_url" }) ∧
    (httpUrlOk (rstripSlash url) = true →
      (∀ u, validate_gitlab_credentials httpUrlOk url (.response 200 u) =
        { is_valid := true, gitlab_username := some (u.getD "unknown") }) ∧
      (∀ u, validate_gitlab_credentials httpUrlOk url (.response 401 u) =
        { is_valid := false, error_message := some "Invalid access token or token expired"
          error_code := some "invalid_token" }) ∧
      (∀ u, validate_gitlab_credentials httpUrlOk url (.response 403 u) =
        { is_valid := false, error_message := some "Token lacks required permissions"
          error_code := some "insufficient_permissions" }) ∧
      (∀ u, validate_gitlab_credentials httpUrlOk url (.response 404 u) =
        { is_valid := false, error_message := some "GitLab API endpoint not found - check URL"
          error_code := some "not_found" }) ∧
      (validate_gitlab_credentials httpUrlOk url .timeout =
        { is_valid := false, error_message := some "Connection timeout - GitLab instance unreachable"
          error_code := some "timeout" }) ∧
      (validate_gitlab_credentials httpUrlOk url .networkError =
        { is_valid := false, error_message := some "Network error - could not reach GitLab instance"
          error_code := some "network_error" }) ∧
      (∀ status u, status ≠ 200 → status ≠ 401 → status ≠ 403 → status ≠ 404 →
        validate_gitlab_credentials httpUrlOk url (.response status u) =
          { is_valid := false
            error_message := some ("GitLab API error: " ++ toString status)
            error_code := some "api_error" })) := by
  constructor
  · intro hu outcome
    unfold validate_gitlab_credentials
    simp [hu]
  · intro hu
    refine ⟨?_, ?_, ?_, ?_, ?_, ?_, ?_⟩ <;>
      unfold validate_gitlab_credentials <;> simp [hu]
    intro status u h200 h401 h403 h404
    simp [h200, h401, h403, h404]

/-- Witness for C2 at concrete inputs: an HTTP 401 response maps to
`invalid_token`, and a URL failing the syntax check maps to `invalid_url`
whatever the network outcome would have been. -/
theorem validateCredential_error_code_mapping_witness :
    validate_gitlab_credentials (fun _ => true) "https://gitlab.com/" (.response 401 none) =
      { is_valid := false, error_message := some "Invalid access token or token expired"
        error_code := some "invalid_token" } ∧
    validate_gitlab_credentials (fun _ => false) "not a url" .timeout =
      { is_valid := false, error_message := some "Invalid GitLab URL format"
        error_code := some "invalid_url" } ∧
    validate_gitlab_credentials (fun _ => true) "https://gitlab.com" (.response 500 none) =
      { is_valid := false, error_message := some "GitLab API error: 500"
        error_code := some "api_error" } :=
  ⟨((validateCredential_error_code_mapping (fun _ => true) "https://gitlab.com/").2 rfl).2.1 none,
   (validateCredential_error_code_mapping (fun _ => false) "not a url").1 rfl .timeout,
   ((validateCredential_error_code_mapping (fun _ => true) "https://gitlab.com").2 rfl).2.2.2.2.2.2
     500 none (by decide) (by decide) (by decide) (by decide)⟩

/-- C3: the validator is total with respect to faults — for every URL-check
outcome and every HTTP outcome (including the catch-all `unexpected`
exception case) it returns a well-formed `GitLabValidationResult` from the
closed error-code set, and an unexpected exception during the network call
maps to `unknown_error`. -/
theorem validateCredential_total (httpUrlOk : String → Bool) (url : String)
    (outcome : HttpOutcome) :
    (((validate_gitlab_credentials httpUrlOk url outcome).is_valid = true ∧
       (validate_gitlab_credentials httpUrlOk url outcome).error_code = none) ∨
     ((validate_gitlab_credentials httpUrlOk url outcome).is_valid = false ∧
       ∃ e, (validate_gitlab_credentials httpUrlOk url outcome).error_code = some e ∧
         e ∈ validationErrorCodes)) ∧
    (httpUrlOk (rstripSlash url) = true →
      validate_gitlab_credentials httpUrlOk url .unexpected =
        { is_valid := false, error_message := some "Unexpected error during validation"
          error_code := some "unknown_error" }) := by
  refine ⟨validate_result_shape httpUrlOk url outcome, fun hu => ?_⟩
  unfold validate_gitlab_credentials
  simp [hu]

/-- Witness for C3: concrete unexpected-exception outcome mapped to
`unknown_error`. -/
theorem validateCredential_total_witness :
    validate_gitlab_credentials (fun _ => true) "https://gitlab.com" .unexpected =
      { is_valid := false, error_message := some "Unexpected error during validation"
        error_code := some "unknown_error" } :=
  (validateCredential_total (fun _ => true) "https://gitlab.com" .unexpected).2 rfl

/-- C4: creating a credential whose base URL duplicates an existing
credential of the same user returns the Conflict rejection whatever the
URL-check and HTTP outcomes would have been, and the database is unchanged
(no record persisted). -/
theorem create_duplicate_url_conflict
    (db : List GitLabConfig) (current_user_id : Nat)
    (config_data : GitLabConfigCreate) (c : GitLabConfig)
    (hc : c ∈ db) (huid : c.user_id = current_user_id)
    (hurl : c.gitlab_url = config_data.gitlab_url)
    (httpUrlOk : String → Bool) (outcome : HttpOutcome)
    (encrypt : String → List Nat) (new_id now : Nat) :
    create_gitlab_config httpUrlOk outcome encrypt new_id now
        current_user_id config_data db = (.error conflictError, db) := by
  unfold create_gitlab_config
  split
  · rfl
  · next hnone =>
    rw [List.find?_eq_none] at hnone
    exact absurd (by simp [huid, hurl]) (hnone c hc)

/-- Witness for C4: a duplicate (user, URL) pair is rejected with the
Conflict error and the single stored record is all that remains, for two
different validation outcomes. -/
theorem create_duplicate_url_conflict_witness :
    (let row : GitLabConfig := { id := 1, user_id := 7, gitlab_url := "https://gitlab.com"
                                 access_token_encrypted := [3, 4] }
     let dup : GitLabConfigCreate := { gitlab_url := "https://gitlab.com"
                                       access_token := "glpat-new" }
     create_gitlab_config (fun _ => true) (.response 200 (some "dev")) (fun _ => [0])
        9 5 7 dup [row] = (.error conflictError, [row]) ∧
     create_gitlab_config (fun _ => true) (.response 401 none) (fun _ => [0])
        9 5 7 dup [row] = (.error conflictError, [row])) := by
  refine ⟨?_, ?_⟩ <;>
    exact create_duplicate_url_conflict _ 7 _
      { id := 1, user_id := 7, gitlab_url := "https://gitlab.com"
        access_token_encrypted := [3, 4] }
      (by decide) rfl rfl _ _ _ 9 5

/-- C5: a non-duplicate creation whose validation fails still persists the
record — appended to the database with the encrypted token — with
`is_active = false`, and the response carries a non-null validation error
code. -/
theorem create_invalid_token_persists
    (httpUrlOk : String → Bool) (outcome : HttpOutcome)
    (encrypt : String → List Nat) (new_id now current_user_id : Nat)
    (config_data : GitLabConfigCreate) (db : List GitLabConfig)
    (hnodup : ∀ c ∈ db, ¬(c.user_id = current_user_id ∧
                          c.gitlab_url = config_data.gitlab_url))
    (hinvalid : (validate_gitlab_credentials httpUrlOk config_data.gitlab_url
        outcome).is_valid = false) :
    ∃ resp new_config,
      create_gitlab_config httpUrlOk outcome encrypt new_id now
          current_user_id config_data db = (.ok resp, db ++ [new_config]) ∧
      new_config.is_active = false ∧
      new_config.access_token_encrypted = encrypt config_data.access_token ∧
      resp.is_active = false ∧
      resp.validation_error_code ≠ none := by
  obtain ⟨e, he, _⟩ :=
    validate_invalid_has_error_code httpUrlOk config_data.gitlab_url outcome hinvalid
  unfold create_gitlab_config
  split
  · next y hy =>
    exact absurd (by simpa using List.find?_some hy)
      (hnodup y (List.mem_of_find?_eq_some hy))
  · exact ⟨_, _, rfl, hinvalid, rfl, hinvalid, by simp [responseWithValidation, he]⟩

/-- Witness for C5: creating against an empty store with a 401 validation
outcome persists the row inactive and reports `invalid_token`. -/
theorem create_invalid_token_persists_witness :
    ∃ resp new_config,
      create_gitlab_config (fun _ => true) (.response 401 none) (fun _ => [8])
          4 6 7 { gitlab_url := "https://gitlab.com", access_token := "expired" }
          [] = (.ok resp, [] ++ [new_config]) ∧
      new_config.is_active = false ∧
      new_config.access_token_encrypted = [8] ∧
      resp.is_active = false ∧
      resp.validation_error_code ≠ none :=
  create_invalid_token_persists (fun _ => true) (.response 401 none) (fun _ => [8])
    4 6 7 { gitlab_url := "https://gitlab.com", access_token := "expired" } []
    (by simp) (by decide)

/-- C6: get, update and delete all look a record up by (record id,
requesting user id); when no stored record matches both — the record does
not exist, or it belongs to a different user — all three return the same
NotFound rejection, and update and delete leave the database unchanged. -/
theorem crud_scoped_to_owner (db : List GitLabConfig)
    (config_id current_user_id : Nat)
    (h : ∀ c ∈ db, c.id = config_id → c.user_id ≠ current_user_id) :
    get_gitlab_config config_id current_user_id db = .error notFoundError ∧
    (∀ httpUrlOk outcome encrypt now config_update,
      update_gitlab_config httpUrlOk outcome encrypt now config_id
          current_user_id config_update db = (.error notFoundError, db)) ∧
    delete_gitlab_config config_id current_user_id db =
      (.error notFoundError, db) := by
  have hfind : findConfig db config_id current_user_id = none := by
    unfold findConfig
    rw [List.find?_eq_none]
    intro x hx
    simpa [not_and] using h x hx
  refine ⟨?_, fun _ _ _ _ _ => ?_, ?_⟩ <;>
    simp [get_gitlab_config, update_gitlab_config, delete_gitlab_config, hfind]

/-- Witness for C6: with one record (id 1) owned by user 2, user 3 reading,
updating or deleting record 1 — and any user touching the absent record 99 —
gets the NotFound rejection with the store intact. -/
theorem crud_scoped_to_owner_witness :
    (let db : List GitLabConfig :=
      [{ id := 1, user_id := 2, gitlab_url := "https://gitlab.com"
         access_token_encrypted := [5] }]
     get_gitlab_config 1 3 db = .error notFoundError ∧
     update_gitlab_config (fun _ => true) .timeout (fun _ => [0]) 8 1 3
        { is_active := some false } db = (.error notFoundError, db) ∧
     delete_gitlab_config 1 3 db = (.error notFoundError, db) ∧
     get_gitlab_config 99 2 db = .error notFoundError) :=
  ⟨(crud_scoped_to_owner _ 1 3 (by decide)).1,
   (crud_scoped_to_owner _ 1 3 (by decide)).2.1 _ _ _ 8 _,
   (crud_scoped_to_owner _ 1 3 (by decide)).2.2,
   (crud_scoped_to_owner _ 99 2 (by decide)).1⟩

/-- C1 counterexample: an update request carrying `access_token = ""` —
which, as the claim itself states, leaves the stored token unchanged, so no
token change accompanies the update — together with a manual
`is_active = true` does NOT have its manual `is_active` accepted: the stored
row keeps `is_active = false` (and its old token), refuting "a manually
supplied is_active value is accepted exactly when no token change
accompanies the update". -/
theorem update_manual_is_active_empty_token_counterexample :
    update_gitlab_config (fun _ => true) (.response 200 none) (fun _ => [0]) 5
        1 7 { access_token := some "", is_active := some true }
        [{ id := 1, user_id := 7, gitlab_url := "https://gitlab.com"
           access_token_encrypted := [9, 9], is_active := false }] =
      (.ok { id := 1, config_name := none, gitlab_url := "https://gitlab.com"
             project_id := none, is_active := false
             created_at := 0, updated_at := 5 },
       [{ id := 1, user_id := 7, gitlab_url := "https://gitlab.com"
          access_token_encrypted := [9, 9], is_active := false
          created_at := 0, updated_at := 5 }]) :=
  rfl

/-- C1 (amended): on a credential update, (a) a non-blank new token is
re-validated against the effective URL and the stored `is_active` becomes the
validation verdict — a manual `is_active` in the same request never changes
that; (b) an `access_token = ""` leaves the stored token, `is_active` and
validation state untouched; (c) a manually supplied `is_active` is accepted
exactly when the `access_token` field is absent from the request — when any
`access_token` value is supplied, even the empty string that leaves the token
unchanged, the manual `is_active` is ignored. -/
theorem update_token_validation_precedence
    (httpUrlOk : String → Bool) (outcome : HttpOutcome)
    (encrypt : String → List Nat) (now : Nat)
    (config_update : GitLabConfigUpdate) (config : GitLabConfig) :
    (∀ tok, config_update.access_token = some tok → pyStrip tok ≠ "" →
      (applyConfigUpdate httpUrlOk outcome encrypt now config_update config).1.is_active =
        (validate_gitlab_credentials httpUrlOk
          (pyOrStr config_update.gitlab_url config.gitlab_url) outcome).is_valid ∧
      (applyConfigUpdate httpUrlOk outcome encrypt now config_update config).1.access_token_encrypted =
        encrypt tok ∧
      (applyConfigUpdate httpUrlOk outcome encrypt now config_update config).2 =
        some (validate_gitlab_credentials httpUrlOk
          (pyOrStr config_update.gitlab_url config.gitlab_url) outcome)) ∧
    (config_update.access_token = some "" →
      (applyConfigUpdate httpUrlOk outcome encrypt now config_update config).1.access_token_encrypted =
        config.access_token_encrypted ∧
      (applyConfigUpdate httpUrlOk outcome encrypt now config_update config).1.is_active =
        config.is_active ∧
      (applyConfigUpdate httpUrlOk outcome encrypt now config_update config).2 = none) ∧
    (∀ b, config_update.is_active = some b → config_update.access_token = none →
      (applyConfigUpdate httpUrlOk outcome encrypt now config_update config).1.is_active = b) ∧
    (∀ tok, config_update.access_token = some tok →
      (applyConfigUpdate httpUrlOk outcome encrypt now config_update config).1.is_active =
      (applyConfigUpdate httpUrlOk outcome encrypt now
        { config_update with is_active := none } config).1.is_active) ∧
    (∀ db config_id current_user_id,
      findConfig db config_id current_user_id = some config →
      update_gitlab_config httpUrlOk outcome encrypt now config_id
          current_user_id config_update db =
        (match (applyConfigUpdate httpUrlOk outcome encrypt now config_update config).2 with
         | some vr =>
           (.ok (responseWithValidation
               (applyConfigUpdate httpUrlOk outcome encrypt now config_update config).1 vr),
            db.map (fun c => if c.id = config.id ∧ c.user_id = config.user_id
                    then (applyConfigUpdate httpUrlOk outcome encrypt now config_update config).1
                    else c))
         | none =>
           (.ok (configToResponse
               (applyConfigUpdate httpUrlOk outcome encrypt now config_update config).1),
            db.map (fun c => if c.id = config.id ∧ c.user_id = config.user_id
                    then (applyConfigUpdate httpUrlOk outcome encrypt now config_update config).1
                    else c)))) := by
  refine ⟨?_, ?_, ?_, ?_, ?_⟩
  · intro tok htok hne
    rcases hia : config_update.is_active with _ | b <;>
      simp [applyConfigUpdate, htok, hne, hia]
  · intro htok
    rcases hia : config_update.is_active with _ | b <;>
      simp [applyConfigUpdate, htok, hia, pyStrip_empty]
  · intro b hia htok
    simp [applyConfigUpdate, htok, hia]
  · intro tok htok
    rcases hia : config_update.is_active with _ | b <;>
      by_cases hne : pyStrip tok = "" <;>
        simp [applyConfigUpdate, htok, hia, hne]
  · intro db config_id current_user_id hfind
    unfold update_gitlab_config
    rw [hfind]

/-- Witness for C1 (amended): concrete updates on a stored row — a non-blank
token whose validation returns 401 deactivates the row and rotates the token
even though the request also asked `is_active = true`, and an update without
the token field has its manual `is_active = true` accepted. -/
theorem update_token_validation_precedence_witness :
    (applyConfigUpdate (fun _ => true) (.response 401 none) (fun _ => [7]) 5
        { access_token := some "glpat-xyz", is_active := some true }
        { id := 1, user_id := 7, gitlab_url := "https://gitlab.com"
          access_token_encrypted := [9], is_active := true }).1.is_active = false ∧
    (applyConfigUpdate (fun _ => true) (.response 401 none) (fun _ => [7]) 5
        { access_token := some "glpat-xyz", is_active := some true }
        { id := 1, user_id := 7, gitlab_url := "https://gitlab.com"
          access_token_encrypted := [9], is_active := true }).1.access_token_encrypted = [7] ∧
    (applyConfigUpdate (fun _ => true) (.response 401 none) (fun _ => [7]) 5
        { is_active := some true }
        { id := 1, user_id := 7, gitlab_url := "https://gitlab.com"
          access_token_encrypted := [9], is_active := false }).1.is_active = true := by
  refine ⟨?_, ?_, ?_⟩
  · have h := (update_token_validation_precedence (fun _ => true) (.response 401 none)
      (fun _ => [7]) 5 { access_token := some "glpat-xyz", is_active := some true }
      { id := 1, user_id := 7, gitlab_url := "https://gitlab.com"
        access_token_encrypted := [9], is_active := true }).1 "glpat-xyz" rfl (by decide)
    exact h.1.trans (by decide)
  · exact ((update_token_validation_precedence (fun _ => true) (.response 401 none)
      (fun _ => [7]) 5 { access_token := some "glpat-xyz", is_active := some true }
      { id := 1, user_id := 7, gitlab_url := "https://gitlab.com"
        access_token_encrypted := [9], is_active := true }).1 "glpat-xyz" rfl (by decide)).2.1
  · exact (update_token_validation_precedence (fun _ => true) (.response 401 none)
      (fun _ => [7]) 5 { is_active := some true }
      { id := 1, user_id := 7, gitlab_url := "https://gitlab.com"
        access_token_encrypted := [9], is_active := false }).2.2.1 true rfl rfl

/-- C7: `list_merge_requests` renders at most 10 entries — exactly
`min length 10` — and whenever the server returned more than 10 it appends a
trailing notice citing the number of remaining merge requests. -/
theorem listMergeRequests_caps_at_ten (project_id state : String)
    (merge_requests : List MergeRequest) :
    (displayedMREntries merge_requests).length ≤ 10 ∧
    (displayedMREntries merge_requests).length = min merge_requests.length 10 ∧
    (merge_requests.length > 10 →
      ∃ body, list_merge_requests_format project_id state merge_requests =
        body ++ ("\n\n---\n\n*... and " ++ toString (merge_requests.length - 10) ++
          " more merge requests*")) := by
  refine ⟨?_, ?_, ?_⟩
  · simp [displayedMREntries, List.length_take]
  · simp [displayedMREntries, List.length_take, Nat.min_comm]
  · intro h
    have hne : merge_requests.isEmpty = false := by
      cases merge_requests with
      | nil => simp at h
      | cons a l => rfl
    unfold list_merge_requests_format
    rw [hne]
    simp only [Bool.false_eq_true, if_false, if_pos h]
    exact ⟨_, rfl⟩

/-- Twelve sample merge-request records for the concrete C7 instance. -/
def sampleMR (i : Nat) : MergeRequest :=
  { iid := i + 1, title := "Change " ++ toString (i + 1)
    author := { name := "Dev", username := "dev" }
    state := "opened", source_branch := "feature", target_branch := "main"
    created_at := "2024-01-01T08:00:00Z", updated_at := "2024-01-02T09:00:00Z"
    web_url := "https://gitlab.com/p/-/merge_requests/" ++ toString (i + 1) }

def sampleTwelveMRs : List MergeRequest :=
  (List.range 12).map sampleMR

/-- Witness for C7: with exactly 12 returned merge requests the formatter
displays 10 entries and appends a note citing "2 more". -/
theorem listMergeRequests_caps_at_ten_witness :
    sampleTwelveMRs.length = 12 ∧
    (displayedMREntries sampleTwelveMRs).length = 10 ∧
    ∃ body, list_merge_requests_format "42" "opened" sampleTwelveMRs =
      body ++ "\n\n---\n\n*... and 2 more merge requests*" := by
  refine ⟨rfl, ?_, ?_⟩
  · exact ((listMergeRequests_caps_at_ten "42" "opened" sampleTwelveMRs).2.1).trans
      (by decide)
  · obtain ⟨body, hb⟩ :=
      (listMergeRequests_caps_at_ten "42" "opened" sampleTwelveMRs).2.2 (by decide)
    exact ⟨body, hb.trans (congrArg (fun t => body ++ t) (by decide))⟩

/-- C8: in a conversation with no selected configuration and no remembered
configuration id that resolves, the dispatcher auto-selects the single
active credential when exactly one exists, and with two or more active
credentials it returns the enumerated configuration prompt and leaves the
conversation unselected — whatever the query was. -/
theorem dispatcher_config_selection
    (listMRsTool : String → String) (mrDetailsTool : Nat → String)
    (st : AgentState) (query : String) (last_config_id : Option Nat)
    (hsel : st.selected_config = none)
    (hlast : last_config_id.bind
      (fun cid => select_config_by_id st.gitlab_configs cid) = none) :
    (∀ c, st.gitlab_configs.filter (fun c => c.is_active) = [c] →
      (handle_query listMRsTool mrDetailsTool st query
        last_config_id).2.selected_config = some c) ∧
    (2 ≤ (st.gitlab_configs.filter (fun c => c.is_active)).length →
      handle_query listMRsTool mrDetailsTool st query last_config_id =
        (some (selectConfigPrompt st.gitlab_configs), st)) := by
  constructor
  · intro c hc
    have hres : resolveConfig st last_config_id = some c := by
      unfold resolveConfig
      rw [hsel, hlast, hc]
    unfold handle_query
    rw [hres]
    dsimp only
    rcases findMRNumber ((pyLower query).data) with _ | n
    · dsimp only
      by_cases hkw : hasListKeyword ((pyLower query).data) = true
      · rw [if_pos hkw]
      · rw [if_neg hkw]
    · rfl
  · intro h2
    have hres : resolveConfig st last_config_id = none := by
      unfold resolveConfig
      rw [hsel, hlast]
      rcases hfil : st.gitlab_configs.filter (fun c => c.is_active) with
        _ | ⟨a, _ | ⟨b, l⟩⟩
      · rw [hfil]
      · rw [hfil] at h2
        simp at h2
      · rw [hfil]
    unfold handle_query
    rw [hres]

/-- Witness for C8: with one active and one inactive credential the single
active one is auto-selected; with two active credentials the dispatcher
returns the enumerated prompt and stays unselected. -/
theorem dispatcher_config_selection_witness :
    (handle_query (fun _ => "list-reply") (fun _ => "detail-reply")
      { gitlab_configs :=
          [{ id := 1, user_id := 7, gitlab_url := "https://a"
             access_token_encrypted := [1], is_active := true },
           { id := 3, user_id := 7, gitlab_url := "https://c"
             access_token_encrypted := [3], is_active := false }] }
      "show mrs" none).2.selected_config =
      some { id := 1, user_id := 7, gitlab_url := "https://a"
             access_token_encrypted := [1], is_active := true } ∧
    handle_query (fun _ => "list-reply") (fun _ => "detail-reply")
      { gitlab_configs :=
          [{ id := 1, user_id := 7, gitlab_url := "https://a"
             access_token_encrypted := [1], is_active := true },
           { id := 2, user_id := 7, gitlab_url := "https://b"
             access_token_encrypted := [2], is_active := true }] }
      "show mrs" none =
      (some (selectConfigPrompt
          [{ id := 1, user_id := 7, gitlab_url := "https://a"
             access_token_encrypted := [1], is_active := true },
           { id := 2, user_id := 7, gitlab_url := "https://b"
             access_token_encrypted := [2], is_active := true }]),
       { gitlab_configs :=
          [{ id := 1, user_id := 7, gitlab_url := "https://a"
             access_token_encrypted := [1], is_active := true },
           { id := 2, user_id := 7, gitlab_url := "https://b"
             access_token_encrypted := [2], is_active := true }] }) := by
  constructor
  · exact (dispatcher_config_selection (fun _ => "list-reply") (fun _ => "detail-reply")
      _ "show mrs" none rfl rfl).1 _ (by decide)
  · exact (dispatcher_config_selection (fun _ => "list-reply") (fun _ => "detail-reply")
      _ "show mrs" none rfl rfl).2 (by decide)

/-- C9 counterexample: a free-text query with none of the recognized GitLab
patterns does NOT always get the null sentinel — with two active credentials
and nothing selected, `handle_query` answers with the configuration-selection
prompt before intent parsing ever runs, refuting the claim as universally
stated. -/
theorem dispatcher_non_match_counterexample :
    findMRNumber ((pyLower "what is the weather today").data) = none ∧
    hasListKeyword ((pyLower "what is the weather today").data) = false ∧
    (handle_query (fun _ => "list-reply") (fun _ => "detail-reply")
      { gitlab_configs :=
          [{ id := 1, user_id := 7, gitlab_url := "https://a"
             access_token_encrypted := [1], is_active := true },
           { id := 2, user_id := 7, gitlab_url := "https://b"
             access_token_encrypted := [2], is_active := true }] }
      "what is the weather today" none).1 ≠ none := by
  refine ⟨rfl, rfl, ?_⟩
  decide

/-- C9 (amended): provided the conversation resolves a configuration (one
already selected, a remembered id that resolves, or exactly one active
credential), a free-text query matching neither the MR-number pattern nor
any list keyword makes `handle_query` return the null sentinel, never an
error or another reply. -/
theorem dispatcher_non_match_returns_none
    (listMRsTool : String → String) (mrDetailsTool : Nat → String)
    (st : AgentState) (query : String) (last_config_id : Option Nat)
    (hres : (resolveConfig st last_config_id).isSome = true)
    (hmr : findMRNumber ((pyLower query).data) = none)
    (hkw : hasListKeyword ((pyLower query).data) = false) :
    (handle_query listMRsTool mrDetailsTool st query last_config_id).1 = none := by
  obtain ⟨c, hc⟩ := Option.isSome_iff_exists.mp hres
  unfold handle_query
  rw [hc]
  simp [hmr, hkw]

/-- Witness for C9 (amended): with a single active credential the same
non-GitLab query from the counterexample yields the null sentinel. -/
theorem dispatcher_non_match_returns_none_witness :
    (handle_query (fun _ => "list-reply") (fun _ => "detail-reply")
      { gitlab_configs :=
          [{ id := 1, user_id := 7, gitlab_url := "https://a"
             access_token_encrypted := [1], is_active := true }] }
      "what is the weather today" none).1 = none :=
  dispatcher_non_match_returns_none (fun _ => "list-reply") (fun _ => "detail-reply")
    _ "what is the weather today" none rfl rfl rfl

/-- C10: decrypting the encryption of any plaintext returns the plaintext,
for every cipher library satisfying Fernet's documented contract and every
key configuration — the key resolution (configured key, PBKDF2-derived key,
or generated fallback) being held constant between the two calls. -/
theorem encrypt_decrypt_roundtrip (L : CipherLib) (env_key : Option String)
    (s : String) :
    decrypt_token L env_key (encrypt_token L env_key s) = some s := by
  unfold decrypt_token encrypt_token
  rw [L.fernet_roundtrip]
  exact L.encode_decode s

/-- Witness for C10: the concrete `plainCipherLib` instance at a fixed
configured key round-trips a token. -/
theorem encrypt_decrypt_roundtrip_witness :
    decrypt_token plainCipherLib (some "app-master-key")
      (encrypt_token plainCipherLib (some "app-master-key") "glpat-secret") =
      some "glpat-secret" :=
  encrypt_decrypt_roundtrip plainCipherLib (some "app-master-key") "glpat-secret"

end CodeReview
